import Mathlib

/-!
Verification of the Solace messaging example programs (C sources under src/)
against their natural-language specification.  The C code is shallowly
embedded: each pure helper becomes a Lean function over lists of characters
or explicit state records, the stateful example harnesses become step
functions folded over event traces, and the outputs the examples emit
(acknowledgements, printed diagnostics, log lines) are collected as values.
The vendor SDK (solClient) is external to the repository; its calls appear
here only through the values the examples pass to it and the callbacks it
drives.
-/

/- ===================================================================
   common.c : common_parseUsernameAndVpn (lines 59-82)

   The C function walks the input string writing into the username buffer
   until an at-sign switches the destination to the VPN buffer.  `remaining`
   counts free bytes of the current buffer; once it reaches zero every
   further ordinary character stores a NUL over the last written byte
   (truncating the effective C string by one), and the at-sign or the final
   write stores the terminating NUL.  We model each buffer by the list of
   characters written into it plus a flag recording whether the
   remaining==0 overwrite has happened; the effective C string is the
   written list, minus its last character when the flag is set.  The VPN
   buffer is represented as an Option: none means the function never
   wrote to it (the no-at-sign case leaves it untouched).
   =================================================================== -/

structure UVState where
  cur : List Char
  rem : Nat
  truncated : Bool
  inVpn : Bool
  userDone : Option (List Char)
deriving Repr, DecidableEq

/-- Effective C-string content of the buffer currently being written:
the characters written, dropping the last one when the remaining==0
overwrite has replaced it with NUL (common.c line 76). -/
def uvEffective (cur : List Char) (truncated : Bool) : List Char :=
  if truncated then cur.dropLast else cur

/-- One loop iteration of common_parseUsernameAndVpn (common.c lines 66-80)
for the character c.  An at-sign terminates the current buffer and redirects
writing to the VPN buffer with remaining = vpnLen; an ordinary character is
appended while remaining is positive and otherwise triggers the
truncating NUL overwrite. -/
def uvStep (vpnLen : Nat) (st : UVState) (c : Char) : UVState :=
  if c = '@' then
    if st.inVpn then
      { st with cur := [], rem := vpnLen, truncated := false }
    else
      { cur := [], rem := vpnLen, truncated := false, inVpn := true,
        userDone := some (uvEffective st.cur st.truncated) }
  else
    if st.rem ≠ 0 then { st with cur := st.cur ++ [c], rem := st.rem - 1 }
    else { st with truncated := true }

/-- Embedding of common_parseUsernameAndVpn (common.c lines 59-82).
Returns the effective username string and, when the VPN buffer was written,
the effective VPN string (none = the VPN buffer was never touched). -/
def common_parseUsernameAndVpn (inName : List Char) (usernameLen vpnLen : Nat) :
    List Char × Option (List Char) :=
  let fin := inName.foldl (uvStep vpnLen) ⟨[], usernameLen, false, false, none⟩
  match fin.userDone with
  | none => (uvEffective fin.cur fin.truncated, none)
  | some u => (u, some (uvEffective fin.cur fin.truncated))

/-- Truncation of a string to a buffer of n bytes as performed by the C
code: a string short enough is kept whole; a longer one has its last
in-buffer byte overwritten by the terminating NUL. -/
def bufTrunc (s : List Char) (n : Nat) : List Char :=
  if s.length ≤ n then s else (s.take n).dropLast


/- ===================================================================
   common.c : common_initCommandOptions (lines 88-113) and
   common_parseCommandOptions (lines 118-279)

   The option loop is driven by getopt_long; we embed its output stream as
   a list of recognized options (one constructor per case label of the C
   switch, plus optUnknown for getopt's failure case that falls to the
   default label).  Numeric options -n, -r, -w carry the atoi result; string
   options carry the option argument as a character list.  The string
   copies into fixed buffers other than username/vpn use strncpy with
   sizes declared in common.h (which is not under src/); none of the
   claims depend on those sizes, so those fields store the full argument.
   The username/vpn buffer sizes are parameters (uLen, vLen) because
   common_parseUsernameAndVpn receives them explicitly.
   =================================================================== -/

def SOLCLIENT_LOG_CRITICAL : Int := 2
def SOLCLIENT_LOG_ERROR : Int := 3
def SOLCLIENT_LOG_WARNING : Int := 4
def SOLCLIENT_LOG_NOTICE : Int := 5
def SOLCLIENT_LOG_INFO : Int := 6
def SOLCLIENT_LOG_DEBUG : Int := 7

/-- Default log filter level of the external API (solClient.h, external to
the repository); its exact value is irrelevant to every claim. -/
def SOLCLIENT_LOG_DEFAULT_FILTER : Int := SOLCLIENT_LOG_NOTICE

/-- Value of a character as a digit, hex letters included. -/
def digitValue (c : Char) : Option Nat :=
  if '0' ≤ c ∧ c ≤ '9' then some (c.toNat - '0'.toNat)
  else if 'a' ≤ c ∧ c ≤ 'f' then some (c.toNat - 'a'.toNat + 10)
  else if 'A' ≤ c ∧ c ≤ 'F' then some (c.toNat - 'A'.toNat + 10)
  else none

/-- Digit-accumulation loop of strtol: consume digits valid in the given
base, returning the accumulated value and the unconsumed suffix. -/
def strtolLoop (base : Nat) (acc : Nat) : List Char → Nat × List Char
  | [] => (acc, [])
  | c :: cs =>
    match digitValue c with
    | some d => if d < base then strtolLoop base (acc * base + d) cs else (acc, c :: cs)
    | none => (acc, c :: cs)

/-- Magnitude part of strtol with base 0: a 0x/0X prefix selects
hexadecimal (only when a hex digit follows, otherwise just the leading
zero is consumed), a leading 0 selects octal, anything else decimal. -/
def strtol0core : List Char → Nat × List Char
  | '0' :: c :: rest =>
    if c = 'x' ∨ c = 'X' then
      match rest with
      | d :: _ =>
        match digitValue d with
        | some _ => strtolLoop 16 0 rest
        | none => (0, c :: rest)
      | [] => (0, [c])
    else strtolLoop 8 0 (c :: rest)
  | ['0'] => (0, [])
  | s => strtolLoop 10 0 s

/-- Embedding of strtol(s, &end, 0) as used by the option parser: skip
spaces and tabs, read an optional sign, then the base-0 magnitude.
Returns the value and the suffix left at *end_p. -/
def strtol0 (s : List Char) : Int × List Char :=
  let s1 := s.dropWhile (fun c => c = ' ' || c = '\t')
  match s1 with
  | '-' :: rest => let r := strtol0core rest; (-(r.1 : Int), r.2)
  | '+' :: rest => let r := strtol0core rest; ((r.1 : Int), r.2)
  | _ => let r := strtol0core s1; ((r.1 : Int), r.2)

/-- Case-insensitive string equality (strcasecmp returning 0). -/
def eqNoCase (a b : List Char) : Bool :=
  a.map Char.toLower == b.map Char.toLower

/-- Embedding of the case for the log-level option (common.c lines
165-184): take the strtol value; when it is out of range or the argument
was not fully numeric, fall back to the named levels; an unrecognized
name leaves the strtol value in place and clears the parse result flag. -/
def parseLogOption (s : List Char) (rc : Bool) : Int × Bool :=
  let r := strtol0 s
  if r.1 > SOLCLIENT_LOG_DEBUG ∨ r.2 ≠ [] then
    if eqNoCase s "debug".toList then (SOLCLIENT_LOG_DEBUG, rc)
    else if eqNoCase s "info".toList then (SOLCLIENT_LOG_INFO, rc)
    else if eqNoCase s "notice".toList then (SOLCLIENT_LOG_NOTICE, rc)
    else if eqNoCase s "warn".toList then (SOLCLIENT_LOG_WARNING, rc)
    else if eqNoCase s "error".toList then (SOLCLIENT_LOG_ERROR, rc)
    else if eqNoCase s "critical".toList then (SOLCLIENT_LOG_CRITICAL, rc)
    else (r.1, false)
  else (r.1, rc)

/-- The commonOptions structure of common.h as populated by common.c;
pointer-free fields only, in the order the initializer touches them. -/
structure CommonOptions where
  username : List Char
  password : List Char
  vpn : List Char
  targetHost : List Char
  cacheName : List Char
  replayStartLocation : List Char
  usingTopic : Bool
  usingAD : Bool
  destinationName : List Char
  numMsgsToSend : Int
  msgRate : Int
  gdWindow : Int
  logLevel : Int
  usingDurable : Bool
  enableCompression : Bool
  useGSS : Bool
deriving Repr, DecidableEq

/-- Which parameters an example marks as required (the requiredFields
bit mask handed to common_initCommandOptions). -/
structure ParamMasks where
  host : Bool
  user : Bool
  dest : Bool
  pass : Bool
  cache : Bool
deriving Repr, DecidableEq

/-- Embedding of common_initCommandOptions (common.c lines 88-113). -/
def common_initCommandOptions : CommonOptions :=
  { username := [], password := [], vpn := [], targetHost := [], cacheName := [],
    replayStartLocation := [], usingTopic := true, usingAD := false,
    destinationName := [], numMsgsToSend := 1, msgRate := 1, gdWindow := 0,
    logLevel := SOLCLIENT_LOG_DEFAULT_FILTER, usingDurable := false,
    enableCompression := false, useGSS := false }

/-- One recognized command-line option, i.e. one iteration of the
getopt_long loop in common_parseCommandOptions.  Numeric options carry
the atoi result of their argument. -/
inductive CmdOpt where
  | optCache (s : List Char)
  | optCip (s : List Char)
  | optDurable
  | optGss
  | optLog (s : List Char)
  | optCu (s : List Char)
  | optMn (v : Int)
  | optCp (s : List Char)
  | optMr (v : Int)
  | optTopic (s : List Char)
  | optWin (v : Int)
  | optZip
  | optReplay (s : List Char)
  | optUnknown
deriving Repr, DecidableEq

/-- One iteration of the option switch (common.c lines 145-216): updates
the options record and the parse result flag (rc, true for 1). -/
def applyOpt (uLen vLen : Nat) (acc : CommonOptions × Bool) : CmdOpt → CommonOptions × Bool
  | .optCache s => ({ acc.1 with cacheName := s }, acc.2)
  | .optCip s => ({ acc.1 with targetHost := s }, acc.2)
  | .optDurable => ({ acc.1 with usingDurable := true }, acc.2)
  | .optGss => ({ acc.1 with useGSS := true }, acc.2)
  | .optZip => ({ acc.1 with enableCompression := true }, acc.2)
  | .optReplay s => ({ acc.1 with replayStartLocation := s }, acc.2)
  | .optLog s =>
    let r := parseLogOption s acc.2
    ({ acc.1 with logLevel := r.1 }, r.2)
  | .optMn v => ({ acc.1 with numMsgsToSend := v }, if v ≤ 0 then false else acc.2)
  | .optMr v => ({ acc.1 with msgRate := v }, if v ≤ 0 then false else acc.2)
  | .optTopic s => ({ acc.1 with destinationName := s }, acc.2)
  | .optCu s =>
    let r := common_parseUsernameAndVpn s uLen vLen
    ({ acc.1 with username := r.1, vpn := r.2.getD acc.1.vpn }, acc.2)
  | .optCp s => ({ acc.1 with password := s }, acc.2)
  | .optWin v => ({ acc.1 with gdWindow := v }, if v ≤ 0 then false else acc.2)
  | .optUnknown => (acc.1, false)

/-- Required-parameter checks after the option loop (common.c lines
218-237); each missing required field clears the parse result flag. -/
def requiredChecksRc (o : CommonOptions) (req : ParamMasks) (rc : Bool) : Bool :=
  let rc1 := if req.host && o.targetHost.isEmpty then false else rc
  let rc2 := if req.user && o.username.isEmpty && !o.useGSS then false else rc1
  let rc3 := if req.dest && o.destinationName.isEmpty then false else rc2
  let rc4 := if req.pass && o.password.isEmpty then false else rc3
  if req.cache && o.cacheName.isEmpty then false else rc4

/-- Embedding of common_parseCommandOptions (common.c lines 118-279):
fold the option switch over the recognized options starting from the
initialized record with rc = 1, then apply the required-parameter checks.
Returns the populated options and the parse result (false stands for the
C return value 0, the usage-error result). -/
def common_parseCommandOptions (uLen vLen : Nat) (opts : List CmdOpt)
    (req : ParamMasks) : CommonOptions × Bool :=
  let st := opts.foldl (applyOpt uLen vLen) (common_initCommandOptions, true)
  (st.1, requiredChecksRc st.1 req st.2)

/- ===================================================================
   feature/flowControlQueue.c

   Globals (lines 28-29): flow_receiving = 1, unackedMsgId = 0.  The flow
   receive callback (lines 37-72) acknowledges the delivered message when
   flow_receiving is set and otherwise withholds the acknowledgement,
   storing the message id in the single unackedMsgId slot (printing a
   diagnostic when the slot was already occupied).  The publish loop
   (lines 248-316) toggles flow_receiving after every tenth published
   message, acknowledging and clearing the withheld id when it switches
   back to receiving.  Property keys and the values the example passes
   for them are modelled symbolically (their string spellings live in the
   external solClient.h).
   =================================================================== -/

inductive FlowProp where
  | maxUnackedMessages
  | bindBlocking
  | bindEntityId
  | bindEntityDurable
  | bindName
  | ackMode
deriving Repr, DecidableEq

inductive PropVal where
  | str (s : String)
  | enableVal
  | disableVal
  | bindEntityQueue
  | ackModeClient
  | gssKrb
  | permDelete
  | endpointQueue
deriving Repr, DecidableEq

/-- Flow property list built by flowControlQueue.c main (lines 183-234):
max unacked messages "1", blocking bind, queue bind entity, durable flag
from the command options, the queue name, and client acknowledgement
mode. -/
def flowControlQueue_flowProps (usingDurable : Bool) (queueName : String) :
    List (FlowProp × PropVal) :=
  [(.maxUnackedMessages, .str "1"),
   (.bindBlocking, .enableVal),
   (.bindEntityId, .bindEntityQueue)]
  ++ (if usingDurable then [(.bindEntityDurable, .enableVal)]
      else [(.bindEntityDurable, .disableVal)])
  ++ [(.bindName, .str queueName),
      (.ackMode, .ackModeClient)]

/-- Association lookup in a property list, mirroring how the NULL
terminated key-value property arrays of the C API are searched: the
first entry with the given key wins. -/
def lookupProp {α β : Type} [DecidableEq α] : List (α × β) → α → Option β
  | [], _ => none
  | (k, v) :: rest, key => if k = key then some v else lookupProp rest key

/-- The two globals of flowControlQueue.c (lines 28-29); unackedMsgId = 0
plays the role of "no withheld message" exactly as in the C truth test
if (unackedMsgId). -/
structure FcqState where
  flow_receiving : Bool
  unackedMsgId : Nat
deriving Repr, DecidableEq

inductive FcqAct where
  | ackSent (msgId : Nat)
  | diagPrinted (newId oldId : Nat)
deriving Repr, DecidableEq

/-- Embedding of flowMsgCallbackFunc (flowControlQueue.c lines 37-72).
dumpOk and getIdOk are the outcomes of the two API calls whose failure
makes the callback return early without acknowledging. -/
def flowMsgCallbackFunc (st : FcqState) (msgId : Nat) (dumpOk getIdOk : Bool) :
    FcqState × List FcqAct :=
  if ¬dumpOk then (st, [])
  else if ¬getIdOk then (st, [])
  else if st.flow_receiving then (st, [.ackSent msgId])
  else if st.unackedMsgId ≠ 0 then
    ({ st with unackedMsgId := msgId }, [.diagPrinted msgId st.unackedMsgId])
  else ({ st with unackedMsgId := msgId }, [])

/-- Embedding of the every-tenth-message toggle in the publish loop
(flowControlQueue.c lines 300-313), applied to the post-increment value
of publishCount. -/
def publishToggle (publishCount : Nat) (st : FcqState) : FcqState × List FcqAct :=
  if publishCount % 10 = 0 then
    if st.flow_receiving then ({ st with flow_receiving := false }, [])
    else if st.unackedMsgId ≠ 0 then
      ({ flow_receiving := true, unackedMsgId := 0 }, [.ackSent st.unackedMsgId])
    else ({ st with flow_receiving := true }, [])
  else (st, [])

/-- One interleaved event of a flowControlQueue run: a delivery on the
flow (driving the receive callback) or one publish-loop iteration. -/
inductive FcqEvent where
  | deliver (msgId : Nat) (dumpOk getIdOk : Bool)
  | publish
deriving Repr, DecidableEq

structure FcqWorld where
  st : FcqState
  publishCount : Nat
  acts : List FcqAct
deriving Repr, DecidableEq

def fcqStep (w : FcqWorld) : FcqEvent → FcqWorld
  | .deliver msgId dOk gOk =>
    let r := flowMsgCallbackFunc w.st msgId dOk gOk
    ⟨r.1, w.publishCount, w.acts ++ r.2⟩
  | .publish =>
    let pc := w.publishCount + 1
    let r := publishToggle pc w.st
    ⟨r.1, pc, w.acts ++ r.2⟩

/-- Initial world: globals as at lines 28-29, publishCount = 0 (line 248). -/
def fcqInit : FcqWorld := ⟨⟨true, 0⟩, 0, []⟩

def fcqRun (evs : List FcqEvent) : FcqWorld := evs.foldl fcqStep fcqInit

/-- Number of deliberately unacknowledged messages the harness is
tracking: the single slot holds one when non-zero. -/
def withheldCount (st : FcqState) : Nat := if st.unackedMsgId ≠ 0 then 1 else 0

/- ===================================================================
   Exit-code and cleanup structure of the example mains.

   flowControlQueue.c main (lines 82-348): exit(1) when
   common_parseCommandOptions returns 0 (line 122-124); on every later
   path the goto chain falls through cleanupFlow / sessionConnected /
   cleanup / notInitialized and main returns 0 (line 346).
   HelloWorldWebPub.c main (lines 55-224) instead returns -1 on its usage
   check and on every failing API step.
   =================================================================== -/

inductive CleanupAct where
  | flowDestroy
  | sessionDisconnect
  | solClientCleanup
deriving Repr, DecidableEq

/-- Where a flowControlQueue run stopped after successful option parsing:
each constructor names the first failing call (or the normal Ctrl-C
termination) and determines which goto label the code jumps to. -/
inductive FcqOutcome where
  | failInitialize
  | failContextCreate
  | failSessionConnect
  | failGenerateUUID
  | failFlowCreate
  | failFlowGetDestination
  | failPublishMsgStep
  | ranUntilCtrlC
deriving Repr, DecidableEq

/-- Cleanup actions executed from the goto label each outcome reaches
(flowControlQueue.c lines 328-346; the labels fall through in the order
cleanupFlow, sessionConnected, cleanup, notInitialized). -/
def fcqCleanupFrom : FcqOutcome → List CleanupAct
  | .failInitialize => []
  | .failContextCreate => [.solClientCleanup]
  | .failSessionConnect => [.solClientCleanup]
  | .failGenerateUUID => [.sessionDisconnect, .solClientCleanup]
  | .failFlowCreate => [.sessionDisconnect, .solClientCleanup]
  | .failFlowGetDestination => [.sessionDisconnect, .solClientCleanup]
  | .failPublishMsgStep => [.flowDestroy, .sessionDisconnect, .solClientCleanup]
  | .ranUntilCtrlC => [.flowDestroy, .sessionDisconnect, .solClientCleanup]

structure MainResult where
  exitCode : Int
  cleanup : List CleanupAct
deriving Repr, DecidableEq

/-- Required parameters of flowControlQueue.c: USER_PARAM_MASK only
(line 115). -/
def flowControlQueue_required : ParamMasks :=
  ⟨false, true, false, false, false⟩

/-- Exit-code and cleanup structure of flowControlQueue.c main: exit(1)
exactly when option parsing fails; afterwards every outcome runs its
cleanup chain and main returns 0. -/
def flowControlQueue_main (uLen vLen : Nat) (cmdline : List CmdOpt)
    (run : FcqOutcome) : MainResult :=
  let parsed := common_parseCommandOptions uLen vLen cmdline flowControlQueue_required
  if parsed.2 = false then ⟨1, []⟩
  else ⟨0, fcqCleanupFrom run⟩

inductive HwwpStep where
  | initApi
  | contextCreate
  | sessionCreate
  | sessionConnect
  | msgAlloc
  | setDeliveryMode
  | setDestination
  | setBinaryAttachment
  | sendMsg
  | msgFree
deriving Repr, DecidableEq

/-- Exit-code structure of HelloWorldWebPub.c main (lines 55-224): fewer
than five arguments or a transport argument that is neither HTTP nor WS
prints a usage message and returns -1; every failing API step prints the
return code and returns -1; the successful path returns 0. -/
def helloWorldWebPub_main (argc : Nat) (transportIsHttpOrWs : Bool)
    (failStep : Option HwwpStep) : Int :=
  if argc < 5 then -1
  else if ¬transportIsHttpOrWs then -1
  else
    match failStep with
    | some _ => -1
    | none => 0

/- ===================================================================
   features/adPubAck.c

   The publisher keeps a singly linked list of messageCorrelationStruct
   entries (head/tail pointers, lines 175-177).  Each publish-loop
   iteration appends a fresh entry with msgId = loop counter and both
   flags FALSE (lines 284-301).  The event callback, reached through the
   correlation pointer, marks the entry acked+accepted on an
   ACKNOWLEDGEMENT event and acked+rejected on a REJECTED_MSG_ERROR event
   (lines 81-107).  The in-loop housekeeping frees acked entries from the
   head (lines 327-339); the final cleanup after disconnect frees every
   remaining entry unconditionally (lines 360-372).  Freed entries are
   logged with the field values they had at free time.
   =================================================================== -/

structure Corr where
  msgId : Nat
  isAcked : Bool
  isAccepted : Bool
deriving Repr, DecidableEq

inductive ApEvent where
  | sendMsg
  | ackEvent (msgId : Nat)
  | rejEvent (msgId : Nat)
  | housekeep
deriving Repr, DecidableEq

structure ApState where
  live : List Corr
  sendCount : Nat
  freedHk : List Corr
  freedFinal : List Corr
deriving Repr, DecidableEq

/-- Effect of the ACKNOWLEDGEMENT case of adPubAck_eventCallback (lines
81-92) on the correlated entry. -/
def apAck (msgId : Nat) (e : Corr) : Corr :=
  if e.msgId = msgId then { e with isAcked := true, isAccepted := true } else e

/-- Effect of the REJECTED_MSG_ERROR case of adPubAck_eventCallback
(lines 94-107) on the correlated entry. -/
def apRej (msgId : Nat) (e : Corr) : Corr :=
  if e.msgId = msgId then { e with isAcked := true, isAccepted := false } else e

def apApplyEvent (st : ApState) : ApEvent → ApState
  | .sendMsg =>
    { st with live := st.live ++ [⟨st.sendCount, false, false⟩],
              sendCount := st.sendCount + 1 }
  | .ackEvent i => { st with live := st.live.map (apAck i) }
  | .rejEvent i => { st with live := st.live.map (apRej i) }
  | .housekeep =>
    { st with live := st.live.dropWhile (fun e => e.isAcked),
              freedHk := st.freedHk ++ st.live.takeWhile (fun e => e.isAcked) }

def apInit : ApState := ⟨[], 0, [], []⟩

/-- A complete adPubAck run: fold the interleaved publish-loop and event
dispatcher actions, then perform the unconditional final cleanup loop
(lines 360-372) which frees every entry still linked. -/
def adPubAck_run (evs : List ApEvent) : ApState :=
  let st := evs.foldl apApplyEvent apInit
  { st with live := [], freedFinal := st.live }

def apFreed (st : ApState) : List Corr := st.freedHk ++ st.freedFinal

/- ===================================================================
   common.c : common_handleError (lines 44-53), common_eventCallback
   (lines 541-585), common_flowEventCallback (lines 600-636).

   Output lines are tagged with their channel: printf writes to standard
   output, solClient_log hands the line to the API logging facility.
   The sub-code and reason strings come from solClient_getLastErrorInfo,
   modelled as an ErrorInfo argument.
   =================================================================== -/

inductive OutChannel where
  | stdout
  | apiLog
deriving Repr, DecidableEq

structure ErrorInfo where
  subCode : String
  responseCode : Int
  errorStr : String
deriving Repr, DecidableEq

structure OutLine where
  channel : OutChannel
  level : Option Int
  subCode : Option String
  reason : Option String
deriving Repr, DecidableEq

/-- Embedding of common_handleError (common.c lines 44-53): one
solClient_log line at ERROR level carrying the stringified return code,
sub-code, response code and reason, after which the last error info is
reset.  No printf is executed. -/
def common_handleError (rc : Int) (errorStrCtx : String) (err : ErrorInfo) : OutLine :=
  ⟨.apiLog, some SOLCLIENT_LOG_ERROR, some err.subCode, some err.errorStr⟩

/-- Session events by the case labels of common_eventCallback. -/
inductive SessionEvent where
  | upNotice
  | acknowledgement
  | teUnsubscribeOk
  | canSend
  | reconnectingNotice
  | reconnectedNotice
  | provisionOk
  | subscriptionOk
  | downError
  | connectFailedError
  | rejectedMsgError
  | subscriptionError
  | rxMsgTooBigError
  | teUnsubscribeError
  | provisionError
  | otherEvent
deriving Repr, DecidableEq

/-- The error-class case labels of common_eventCallback (common.c lines
563-569). -/
def isErrorClassEvent : SessionEvent → Bool
  | .downError => true
  | .connectFailedError => true
  | .rejectedMsgError => true
  | .subscriptionError => true
  | .rxMsgTooBigError => true
  | .teUnsubscribeError => true
  | .provisionError => true
  | _ => false

/-- Embedding of common_eventCallback (common.c lines 541-585):
non-error events are logged at INFO level, error events are printed to
standard output with sub-code, response code and reason, unrecognized
events are printed to standard output. -/
def common_eventCallback (ev : SessionEvent) (err : ErrorInfo) : OutLine :=
  match ev with
  | .upNotice | .acknowledgement | .teUnsubscribeOk | .canSend
  | .reconnectingNotice | .reconnectedNotice | .provisionOk | .subscriptionOk =>
    ⟨.apiLog, some SOLCLIENT_LOG_INFO, none, none⟩
  | .downError | .connectFailedError | .rejectedMsgError | .subscriptionError
  | .rxMsgTooBigError | .teUnsubscribeError | .provisionError =>
    ⟨.stdout, none, some err.subCode, some err.errorStr⟩
  | .otherEvent => ⟨.stdout, none, none, none⟩

/-- Flow events by the case labels of common_flowEventCallback. -/
inductive FlowEvent where
  | upNotice
  | sessionDown
  | active
  | inactive
  | downError
  | bindFailedError
  | rejectedMsgError
  | otherEvent
deriving Repr, DecidableEq

def isFlowErrorClassEvent : FlowEvent → Bool
  | .downError => true
  | .bindFailedError => true
  | .rejectedMsgError => true
  | _ => false

/-- Embedding of common_flowEventCallback (common.c lines 600-636). -/
def common_flowEventCallback (ev : FlowEvent) (err : ErrorInfo) : OutLine :=
  match ev with
  | .upNotice | .sessionDown | .active | .inactive =>
    ⟨.apiLog, some SOLCLIENT_LOG_INFO, none, none⟩
  | .downError | .bindFailedError | .rejectedMsgError =>
    ⟨.stdout, none, some err.subCode, some err.errorStr⟩
  | .otherEvent => ⟨.stdout, none, none, none⟩

/- ===================================================================
   common.c : common_createAndConnectSession (lines 285-405) and
   common_createQueue (lines 411-443).
   =================================================================== -/

inductive SessionProp where
  | host
  | compressionLevel
  | connectRetries
  | reconnectRetries
  | reapplySubscriptions
  | generateSendTimestamps
  | generateSenderId
  | generateSequenceNumber
  | vpnName
  | sslValidateCertificate
  | username
  | password
  | authScheme
deriving Repr, DecidableEq

/-- Session property list built by common_createAndConnectSession
(common.c lines 316-384) in source order: host when given, compression
level "9" or "0" from the -z flag, connect and reconnect retries fixed
at "3", the generated-field toggles, VPN when given, certificate
validation always disabled, username, password, and the GSS scheme when
requested. -/
def common_createAndConnectSession_props (o : CommonOptions) :
    List (SessionProp × PropVal) :=
  (if o.targetHost.isEmpty then [] else [(.host, .str (String.mk o.targetHost))])
  ++ [(.compressionLevel, .str (if o.enableCompression then "9" else "0")),
      (.connectRetries, .str "3"),
      (.reconnectRetries, .str "3"),
      (.reapplySubscriptions, .enableVal),
      (.generateSendTimestamps, .enableVal),
      (.generateSenderId, .enableVal),
      (.generateSequenceNumber, .enableVal)]
  ++ (if o.vpn.isEmpty then [] else [(.vpnName, .str (String.mk o.vpn))])
  ++ [(.sslValidateCertificate, .disableVal),
      (.username, .str (String.mk o.username)),
      (.password, .str (String.mk o.password))]
  ++ (if o.useGSS then [(.authScheme, .gssKrb)] else [])

/-- Modelled from the spec: COMMON_DMQ_NAME is defined in common.h,
which is not under src/.  The spec only calls it "the dead-message-queue
name"; the value here is representative and the claims depend only on
whether the provisioned queue name equals this constant. -/
def COMMON_DMQ_NAME : String := "#DEAD_MSG_QUEUE"

inductive EndpointProp where
  | endpointId
  | endpointName
  | permission
  | respectsMsgTtl
deriving Repr, DecidableEq

/-- Endpoint property list built by common_createQueue (common.c lines
418-433): queue endpoint, the given name, delete permission, and the
respects-message-TTL enable except for the dead message queue. -/
def common_createQueue_props (queueName : String) : List (EndpointProp × PropVal) :=
  [(.endpointId, .endpointQueue),
   (.endpointName, .str queueName),
   (.permission, .permDelete)]
  ++ (if queueName ≠ COMMON_DMQ_NAME then [(.respectsMsgTtl, .enableVal)] else [])

inductive ProvisionFlag where
  | waitForConfirm
  | ignoreExistErrors
deriving Repr, DecidableEq

/-- Provision flags passed by common_createQueue to
solClient_session_endpointProvision (common.c line 435). -/
def common_createQueue_provisionFlags : List ProvisionFlag :=
  [.waitForConfirm, .ignoreExistErrors]

/- ===================================================================
   feature/messageTTLAndDeadMessageQueue.c

   publishMessageWithTTL (lines 55-104) publishes a non-persistent empty
   message to COMMON_MY_SAMPLE_TOPIC with the given TTL and DMQ-eligible
   flag.  Main publishes three TTL=0 messages, one TTL=3000 DMQ=FALSE
   message and one TTL=3000 DMQ=TRUE message (lines 286-308, repeated at
   lines 393-411 with the flow stopped), and its success path demands the
   observed counters 5 then 0 (lines 367-378), exactly 1 on the DMQ after
   expiry (lines 418-421), and exactly 3 on the restarted flow (lines
   431-438).
   =================================================================== -/

inductive DeliveryMode where
  | direct
  | persistent
  | nonPersistent
deriving Repr, DecidableEq

/-- Modelled from the spec: COMMON_MY_SAMPLE_TOPIC is defined in
common.h, which is not under src/; the value here is representative and
no claim depends on it. -/
def COMMON_MY_SAMPLE_TOPIC : String := "my/sample/topic"

structure TtlMsg where
  deliveryMode : DeliveryMode
  destTopic : String
  ttl : Int
  dmqEligible : Bool
deriving Repr, DecidableEq

/-- Embedding of publishMessageWithTTL (messageTTLAndDeadMessageQueue.c
lines 55-104): the message handed to solClient_session_sendMsg. -/
def publishMessageWithTTL (ttl : Int) (dmqe : Bool) : TtlMsg :=
  ⟨.nonPersistent, COMMON_MY_SAMPLE_TOPIC, ttl, dmqe⟩

/-- The five messages one publish phase sends (lines 286-308 and again
at lines 393-411): three with TTL 0, one with TTL 3000 not DMQ eligible,
one with TTL 3000 DMQ eligible. -/
def ttlDmq_phasePublishes : List TtlMsg :=
  (List.replicate 3 (publishMessageWithTTL 0 false))
  ++ [publishMessageWithTTL 3000 false, publishMessageWithTTL 3000 true]

/-- The counter observations the main path checks, in program order. -/
structure TtlDmqCounters where
  flowRxPhase1 : Nat
  dmqRxPhase1 : Nat
  dmqRxAfterExpiry : Nat
  flowRxAfterRestart : Nat
deriving Repr, DecidableEq

/-- Guard chain of the success path of messageTTLAndDeadMessageQueue.c
main (lines 367-378, 418-421, 431-438): each failed comparison jumps to
sessionConnected, so the closing success message is reached exactly when
all four counters match. -/
def ttlDmq_successPath (c : TtlDmqCounters) : Bool :=
  c.flowRxPhase1 == 5 && c.dmqRxPhase1 == 0 &&
    c.dmqRxAfterExpiry == 1 && c.flowRxAfterRestart == 3

/- ===================================================================
   features/messageReplay.c

   The receive callback (lines 52-87) increments the volatile counter
   msgReceived_s (declared 0 at line 35) before anything else, prints the
   message, and re-sends its raw SMF contents.  Main blocks at line 315
   on the busy-wait loop while ( msgReceived_s < 100 ); whose body is the
   empty statement.
   =================================================================== -/

inductive ReplayAct where
  | printReceivedNumber (n : Nat)
  | dumpMsg
  | sendSmf
deriving Repr, DecidableEq

/-- Embedding of messageReceiveCallback (messageReplay.c lines 52-87):
the counter is incremented first (line 58); dumpOk and getSmfOk are the
outcomes of the API calls whose failure makes the callback return
early. -/
def messageReceiveCallback (count : Nat) (dumpOk getSmfOk : Bool) :
    Nat × List ReplayAct :=
  let c := count + 1
  if ¬dumpOk then (c, [.printReceivedNumber c])
  else if ¬getSmfOk then (c, [.printReceivedNumber c, .dumpMsg])
  else (c, [.printReceivedNumber c, .dumpMsg, .sendSmf])

/-- Counter value after n invocations of the receive callback, starting
from the initial msgReceived_s = 0. -/
def msgReceivedAfter (n : Nat) : Nat :=
  (fun c => (messageReceiveCallback c true true).1)^[n] 0

/-- Loop condition of the busy-wait at messageReplay.c line 315. -/
def busyWaitGuard (msgReceived : Nat) : Bool := msgReceived < 100

/-- Actions performed by the body of the busy-wait loop: the while
statement at line 315 has the empty statement as its body, so it
performs none. -/
def busyWaitBodyActs : List ReplayAct := []

/-- Termination of the busy-wait loop over a sequence of observed
counter values (obs k = the value the k-th poll of the volatile
msgReceived_s reads): the loop exits exactly when some poll sees the
guard fail. -/
def busyWaitTerminates (obs : Nat → Nat) : Prop :=
  ∃ k, busyWaitGuard (obs k) = false

/- ===================================================================
   Proofs.
   =================================================================== -/

lemma uvFold_no_at (vpnLen : Nat) :
    ∀ (l : List Char) (cur : List Char) (rem : Nat) (t iv : Bool)
      (ud : Option (List Char)), '@' ∉ l →
      l.foldl (uvStep vpnLen) ⟨cur, rem, t, iv, ud⟩ =
        ⟨cur ++ l.take rem, rem - l.length, t || decide (rem < l.length), iv, ud⟩ := by
  intro l
  induction l with
  | nil => intro cur rem t iv ud _; simp
  | cons c cs ih =>
    intro cur rem t iv ud hmem
    have hc : c ≠ '@' := by
      intro h; exact hmem (h ▸ List.mem_cons_self c cs)
    have hcs : '@' ∉ cs := fun h => hmem (List.mem_cons_of_mem c h)
    cases rem with
    | zero =>
      rw [List.foldl_cons]
      have hstep : uvStep vpnLen ⟨cur, 0, t, iv, ud⟩ c = ⟨cur, 0, true, iv, ud⟩ := by
        simp [uvStep, hc]
      rw [hstep, ih cur 0 true iv ud hcs]
      simp
    | succ r =>
      rw [List.foldl_cons]
      have hstep : uvStep vpnLen ⟨cur, r + 1, t, iv, ud⟩ c = ⟨cur ++ [c], r, t, iv, ud⟩ := by
        simp [uvStep, hc]
      rw [hstep, ih (cur ++ [c]) r t iv ud hcs]
      simp [Nat.succ_sub_succ, Nat.succ_lt_succ_iff]

lemma uvEffective_take (s : List Char) (n : Nat) :
    uvEffective (s.take n) (decide (n < s.length)) = bufTrunc s n := by
  by_cases hlen : s.length ≤ n
  · have h1 : ¬ n < s.length := not_lt.mpr hlen
    simp [uvEffective, bufTrunc, h1, hlen, List.take_of_length_le hlen]
  · have hlt : n < s.length := not_le.mp hlen
    simp [uvEffective, bufTrunc, hlt, hlen]

/-- On an at-sign-free input the username receives the whole (truncated)
string and the VPN buffer is never written. -/
lemma parseUsernameAndVpn_no_at (s : List Char) (uLen vLen : Nat) (h : '@' ∉ s) :
    common_parseUsernameAndVpn s uLen vLen = (bufTrunc s uLen, none) := by
  unfold common_parseUsernameAndVpn
  rw [uvFold_no_at vLen s [] uLen false false none h]
  simp only [List.nil_append, Bool.false_or]
  rw [uvEffective_take]

lemma uvStep_at_notVpn (vpnLen : Nat) (cur : List Char) (rem : Nat) (t : Bool)
    (ud : Option (List Char)) :
    uvStep vpnLen ⟨cur, rem, t, false, ud⟩ '@' =
      ⟨[], vpnLen, false, true, some (uvEffective cur t)⟩ := by
  simp [uvStep]

/-- On an input of the form user at-sign namespace (a single at-sign),
the username receives the part before the at-sign and the VPN buffer the
part after it, each truncated to its own buffer. -/
lemma parseUsernameAndVpn_one_at (u v : List Char) (uLen vLen : Nat)
    (hu : '@' ∉ u) (hv : '@' ∉ v) :
    common_parseUsernameAndVpn (u ++ '@' :: v) uLen vLen =
      (bufTrunc u uLen, some (bufTrunc v vLen)) := by
  unfold common_parseUsernameAndVpn
  rw [List.foldl_append, uvFold_no_at vLen u [] uLen false false none hu,
    List.foldl_cons]
  simp only [List.nil_append, Bool.false_or]
  rw [uvStep_at_notVpn, uvFold_no_at vLen v [] vLen false true _ hv]
  simp only [List.nil_append, Bool.false_or]
  rw [uvEffective_take, uvEffective_take]

lemma parseLogOption_false (s : List Char) : (parseLogOption s false).2 = false := by
  unfold parseLogOption
  dsimp only
  repeat' split
  all_goals rfl

lemma applyOpt_false (uLen vLen : Nat) (o : CommonOptions) (e : CmdOpt) :
    (applyOpt uLen vLen (o, false) e).2 = false := by
  cases e <;>
    first
      | rfl
      | (simp only [applyOpt]; split <;> rfl)
      | simpa [applyOpt] using parseLogOption_false _

lemma foldOpts_false (uLen vLen : Nat) (l : List CmdOpt) :
    ∀ p : CommonOptions × Bool, p.2 = false →
      (l.foldl (applyOpt uLen vLen) p).2 = false := by
  induction l with
  | nil => intro p h; exact h
  | cons e es ih =>
    intro p h
    rw [List.foldl_cons]
    apply ih
    obtain ⟨o, rc⟩ := p
    simp only at h
    subst h
    exact applyOpt_false uLen vLen o e

lemma requiredChecksRc_false (o : CommonOptions) (req : ParamMasks) :
    requiredChecksRc o req false = false := by
  unfold requiredChecksRc
  dsimp only
  repeat' split
  all_goals rfl

lemma mem_takeWhile_pred {α : Type} (p : α → Bool) :
    ∀ (l : List α) (a : α), a ∈ l.takeWhile p → p a = true := by
  intro l
  induction l with
  | nil => intro a h; cases h
  | cons x xs ih =>
    intro a h
    rw [List.takeWhile_cons] at h
    by_cases hx : p x = true
    · rw [if_pos hx] at h
      rcases List.mem_cons.mp h with rfl | h2
      · exact hx
      · exact ih a h2
    · rw [if_neg hx] at h
      cases h

lemma apFold_freedHk_acked (evs : List ApEvent) :
    ∀ st : ApState, (∀ e ∈ st.freedHk, e.isAcked = true) →
      ∀ e ∈ (evs.foldl apApplyEvent st).freedHk, e.isAcked = true := by
  induction evs with
  | nil => intro st h; exact h
  | cons ev rest ih =>
    intro st h
    rw [List.foldl_cons]
    apply ih
    cases ev with
    | sendMsg => exact h
    | ackEvent i => exact h
    | rejEvent i => exact h
    | housekeep =>
      intro e he
      simp only [apApplyEvent, List.mem_append] at he
      rcases he with h1 | h2
      · exact h e h1
      · exact mem_takeWhile_pred _ st.live e h2

/-- C1: the flow-control queue example creates its Flow with client
acknowledgement mode and a configured max-unacked-messages window of "1";
along every interleaving of flow deliveries and publish-loop iterations
the harness tracks at most one withheld unacknowledged message (the
single unackedMsgId slot); and a delivery processed while the slot is
already occupied prints the already-exists diagnostic and overwrites the
slot. -/
theorem C1_flow_window_invariant :
    (∀ (usingDurable : Bool) (queueName : String),
      lookupProp (flowControlQueue_flowProps usingDurable queueName) .maxUnackedMessages
        = some (.str "1") ∧
      lookupProp (flowControlQueue_flowProps usingDurable queueName) .ackMode
        = some .ackModeClient) ∧
    (∀ evs : List FcqEvent, withheldCount (fcqRun evs).st ≤ 1) ∧
    (∀ (st : FcqState) (msgId : Nat), st.flow_receiving = false → st.unackedMsgId ≠ 0 →
      flowMsgCallbackFunc st msgId true true
        = ({ st with unackedMsgId := msgId }, [.diagPrinted msgId st.unackedMsgId])) := by
  refine ⟨?_, ?_, ?_⟩
  · intro d q
    cases d <;> exact ⟨rfl, rfl⟩
  · intro evs
    unfold withheldCount
    split <;> simp
  · intro st msgId h1 h2
    simp [flowMsgCallbackFunc, h1, h2]

/-- C1 witness: the invariant and the overwrite behaviour at concrete
inputs. -/
theorem C1_witness :
    withheldCount (fcqRun [.publish, .deliver 7 true true]).st ≤ 1 ∧
    flowMsgCallbackFunc ⟨false, 5⟩ 9 true true = (⟨false, 9⟩, [.diagPrinted 9 5]) :=
  ⟨C1_flow_window_invariant.2.1 _,
   C1_flow_window_invariant.2.2 ⟨false, 5⟩ 9 rfl (by decide)⟩

/-- C2 counterexample: a run that sends one guaranteed message and never
receives its acknowledgement frees that entry in the final cleanup loop
(adPubAck.c lines 360-372) with isAcked still FALSE, refuting the claim
that every freed entry had isAcked == TRUE when freed. -/
theorem C2_counterexample :
    ¬ (∀ e ∈ apFreed (adPubAck_run [.sendMsg]), e.isAcked = true) := by
  decide

/-- C2 amended: entries are created with isAcked = isAccepted = FALSE and
appended to the list when a message is sent; the dispatcher sets
isAcked = isAccepted = TRUE on an ACKNOWLEDGEMENT and isAcked = TRUE,
isAccepted = FALSE on a REJECTED_MSG_ERROR for the correlated entry;
every entry freed by the housekeeping loop had isAcked = TRUE when
freed; the final cleanup loop after disconnect frees every remaining
entry regardless of isAcked. -/
theorem C2_pendingAck_lifecycle :
    (∀ st : ApState, (apApplyEvent st .sendMsg).live
        = st.live ++ [⟨st.sendCount, false, false⟩]) ∧
    (∀ (st : ApState) (i : Nat) (e : Corr),
      e ∈ (apApplyEvent st (.ackEvent i)).live → e.msgId = i →
      e.isAcked = true ∧ e.isAccepted = true) ∧
    (∀ (st : ApState) (i : Nat) (e : Corr),
      e ∈ (apApplyEvent st (.rejEvent i)).live → e.msgId = i →
      e.isAcked = true ∧ e.isAccepted = false) ∧
    (∀ (evs : List ApEvent) (e : Corr),
      e ∈ (adPubAck_run evs).freedHk → e.isAcked = true) ∧
    (∀ evs : List ApEvent,
      (adPubAck_run evs).freedFinal = (evs.foldl apApplyEvent apInit).live) := by
  refine ⟨fun st => rfl, ?_, ?_, ?_, fun evs => rfl⟩
  · intro st i e he hei
    simp only [apApplyEvent, List.mem_map] at he
    obtain ⟨x, hx, rfl⟩ := he
    by_cases h : x.msgId = i
    · simp [apAck, h]
    · rw [apAck, if_neg h] at hei ⊢
      exact absurd hei h
  · intro st i e he hei
    simp only [apApplyEvent, List.mem_map] at he
    obtain ⟨x, hx, rfl⟩ := he
    by_cases h : x.msgId = i
    · simp [apRej, h]
    · rw [apRej, if_neg h] at hei ⊢
      exact absurd hei h
  · intro evs e he
    exact apFold_freedHk_acked evs apInit (by intro e h; cases h) e he

/-- C2 witness: the dispatcher effect applied at a concrete state. -/
theorem C2_witness :
    (⟨3, true, true⟩ : Corr).isAcked = true ∧
    (⟨3, true, true⟩ : Corr).isAccepted = true :=
  C2_pendingAck_lifecycle.2.1 ⟨[⟨3, false, false⟩], 4, [], []⟩ 3 ⟨3, true, true⟩
    (by decide) rfl

/-- C3: one publish phase of the TTL and dead-message-queue scenario
sends exactly three TTL=0 messages, one TTL=3000 DMQ-ineligible message
and one TTL=3000 DMQ-eligible message, and the success path of main
requires the DMQ counter to be exactly 1 after expiry, the restarted
queue flow counter to be exactly 3, and the first-phase counters to be
exactly 5 and 0. -/
theorem C3_ttl_dmq_success_counts :
    ttlDmq_phasePublishes.map (fun m => (m.ttl, m.dmqEligible))
      = [(0, false), (0, false), (0, false), (3000, false), (3000, true)] ∧
    (∀ c : TtlDmqCounters, ttlDmq_successPath c = true →
      c.dmqRxAfterExpiry = 1 ∧ c.flowRxAfterRestart = 3 ∧
      c.flowRxPhase1 = 5 ∧ c.dmqRxPhase1 = 0) := by
  constructor
  · rfl
  · intro c h
    simp only [ttlDmq_successPath, Bool.and_eq_true, beq_iff_eq] at h
    exact ⟨h.1.2, h.2, h.1.1.1, h.1.1.2⟩

/-- C3 witness: the success guard at the exact counters it requires. -/
theorem C3_witness :
    (⟨5, 0, 1, 3⟩ : TtlDmqCounters).dmqRxAfterExpiry = 1 ∧
    (⟨5, 0, 1, 3⟩ : TtlDmqCounters).flowRxAfterRestart = 3 ∧
    (⟨5, 0, 1, 3⟩ : TtlDmqCounters).flowRxPhase1 = 5 ∧
    (⟨5, 0, 1, 3⟩ : TtlDmqCounters).dmqRxPhase1 = 0 :=
  C3_ttl_dmq_success_counts.2 ⟨5, 0, 1, 3⟩ (by decide)

lemma requiredChecksRc_user (o : CommonOptions) (req : ParamMasks) (rc : Bool)
    (h : (req.user && o.username.isEmpty && !o.useGSS) = true) :
    requiredChecksRc o req rc = false := by
  unfold requiredChecksRc
  dsimp only
  rw [if_pos h]
  repeat' split
  all_goals rfl

lemma parse_false_of_mid (uLen vLen : Nat) (pre post : List CmdOpt)
    (req : ParamMasks) (e : CmdOpt)
    (h : ∀ acc : CommonOptions × Bool, (applyOpt uLen vLen acc e).2 = false) :
    (common_parseCommandOptions uLen vLen (pre ++ e :: post) req).2 = false := by
  unfold common_parseCommandOptions
  dsimp only
  rw [List.foldl_append, List.foldl_cons]
  have h2 := foldOpts_false uLen vLen post
    (applyOpt uLen vLen (pre.foldl (applyOpt uLen vLen) (common_initCommandOptions, true)) e)
    (h _)
  rw [h2]
  exact requiredChecksRc_false _ _

/-- C4 counterexample: HelloWorldWebPub.c is an example program of this
repository whose main returns -1, not 1, when its usage check fails
(fewer than five arguments), and returns -1, not 0, after a handled
runtime error, refuting the claim for every example program. -/
theorem C4_counterexample :
    helloWorldWebPub_main 4 true none = -1 ∧ (-1 : Int) ≠ 1 ∧
    helloWorldWebPub_main 5 true (some .initApi) = -1 ∧ (-1 : Int) ≠ 0 :=
  ⟨rfl, by decide, rfl, by decide⟩

/-- C4 amended: for the examples that parse their command line with
common_parseCommandOptions (flowControlQueue.c embedded here as the
representative), the process exits with code 1 exactly when
common_parseCommandOptions returns 0, and on every other path main
returns 0; parsing returns 0 when an unknown flag is given, when -n, -r
or -w is given a non-positive value, and when a required username is
missing without GSS.  (The intro HelloWorldWeb examples return -1 on
usage and handled runtime errors instead, and secureSession.c, which
has its own parser, returns 0 even on usage errors.) -/
theorem C4_exit_codes :
    (∀ (uLen vLen : Nat) (cmdline : List CmdOpt) (run : FcqOutcome),
      ((flowControlQueue_main uLen vLen cmdline run).exitCode = 1 ↔
        (common_parseCommandOptions uLen vLen cmdline flowControlQueue_required).2 = false)
      ∧ ((common_parseCommandOptions uLen vLen cmdline flowControlQueue_required).2 = true →
        (flowControlQueue_main uLen vLen cmdline run).exitCode = 0)) ∧
    (∀ (uLen vLen : Nat) (pre post : List CmdOpt) (req : ParamMasks),
      (common_parseCommandOptions uLen vLen (pre ++ CmdOpt.optUnknown :: post) req).2
        = false) ∧
    (∀ (uLen vLen : Nat) (pre post : List CmdOpt) (req : ParamMasks) (v : Int), v ≤ 0 →
      (common_parseCommandOptions uLen vLen (pre ++ CmdOpt.optMn v :: post) req).2
        = false) ∧
    (∀ (uLen vLen : Nat) (pre post : List CmdOpt) (req : ParamMasks) (v : Int), v ≤ 0 →
      (common_parseCommandOptions uLen vLen (pre ++ CmdOpt.optMr v :: post) req).2
        = false) ∧
    (∀ (uLen vLen : Nat) (pre post : List CmdOpt) (req : ParamMasks) (v : Int), v ≤ 0 →
      (common_parseCommandOptions uLen vLen (pre ++ CmdOpt.optWin v :: post) req).2
        = false) ∧
    (∀ (uLen vLen : Nat) (opts : List CmdOpt) (req : ParamMasks),
      (req.user
        && (common_parseCommandOptions uLen vLen opts req).1.username.isEmpty
        && !(common_parseCommandOptions uLen vLen opts req).1.useGSS) = true →
      (common_parseCommandOptions uLen vLen opts req).2 = false) := by
  refine ⟨?_, ?_, ?_, ?_, ?_, ?_⟩
  · intro uLen vLen cmdline run
    unfold flowControlQueue_main
    dsimp only
    by_cases hp :
        (common_parseCommandOptions uLen vLen cmdline flowControlQueue_required).2 = false
    · rw [if_pos hp]
      exact ⟨⟨fun _ => hp, fun _ => rfl⟩, fun ht => by rw [hp] at ht; cases ht⟩
    · rw [if_neg hp]
      exact ⟨⟨fun h1 => absurd (show (0 : Int) = 1 from h1) (by decide),
        fun h1 => absurd h1 hp⟩, fun _ => rfl⟩
  · intro uLen vLen pre post req
    exact parse_false_of_mid uLen vLen pre post req _ (fun acc => rfl)
  · intro uLen vLen pre post req v hv
    refine parse_false_of_mid uLen vLen pre post req _ (fun acc => ?_)
    simp only [applyOpt]
    rw [if_pos hv]
  · intro uLen vLen pre post req v hv
    refine parse_false_of_mid uLen vLen pre post req _ (fun acc => ?_)
    simp only [applyOpt]
    rw [if_pos hv]
  · intro uLen vLen pre post req v hv
    refine parse_false_of_mid uLen vLen pre post req _ (fun acc => ?_)
    simp only [applyOpt]
    rw [if_pos hv]
  · intro uLen vLen opts req h
    unfold common_parseCommandOptions at h ⊢
    dsimp only at h ⊢
    exact requiredChecksRc_user _ _ _ h

/-- C4 witness: the usage-error and success paths of the embedded main,
and a non-positive -n value, at concrete inputs. -/
theorem C4_witness :
    (common_parseCommandOptions 32 32 ([] ++ CmdOpt.optMn 0 :: [])
      ⟨false, false, false, false, false⟩).2 = false ∧
    (flowControlQueue_main 32 32 [CmdOpt.optCu ['u']] FcqOutcome.ranUntilCtrlC).exitCode
      = 0 :=
  ⟨C4_exit_codes.2.2.1 32 32 [] [] ⟨false, false, false, false, false⟩ 0 (by decide),
   (C4_exit_codes.1 32 32 [CmdOpt.optCu ['u']] FcqOutcome.ranUntilCtrlC).2 (by decide)⟩

/-- C5 counterexample: a second --cu argument without an at-sign leaves
the namespace stored by an earlier --cu in place; the VPN output is not
set to the empty string (the function never writes the VPN buffer when
there is no at-sign). -/
theorem C5_counterexample :
    (common_parseCommandOptions 32 32
      [CmdOpt.optCu ['a', '@', 'v'], CmdOpt.optCu ['b']]
      ⟨false, false, false, false, false⟩).1.vpn = ['v'] ∧
    (['v'] : List Char) ≠ [] :=
  ⟨by decide, by decide⟩

/-- C5 amended: a --cu string with no at-sign stores the whole string
(truncated to the username buffer) NUL-terminated as the username and
leaves the VPN buffer unmodified (it equals the empty string only
because initialization cleared it and nothing else wrote it); a string
of the form user at-sign namespace stores the truncated parts before
and after the at-sign as username and VPN respectively, both
NUL-terminated. -/
theorem C5_cu_parsing :
    (∀ (s : List Char) (uLen vLen : Nat), '@' ∉ s →
      common_parseUsernameAndVpn s uLen vLen = (bufTrunc s uLen, none)) ∧
    (∀ (u v : List Char) (uLen vLen : Nat), '@' ∉ u → '@' ∉ v →
      common_parseUsernameAndVpn (u ++ '@' :: v) uLen vLen
        = (bufTrunc u uLen, some (bufTrunc v vLen))) ∧
    (∀ (uLen vLen : Nat) (acc : CommonOptions × Bool) (s : List Char),
      (applyOpt uLen vLen acc (.optCu s)).1.username
          = (common_parseUsernameAndVpn s uLen vLen).1 ∧
      (applyOpt uLen vLen acc (.optCu s)).1.vpn
          = ((common_parseUsernameAndVpn s uLen vLen).2.getD acc.1.vpn)) :=
  ⟨parseUsernameAndVpn_no_at, parseUsernameAndVpn_one_at,
   fun _ _ _ _ => ⟨rfl, rfl⟩⟩

/-- C5 witness: both split cases at concrete inputs. -/
theorem C5_witness :
    common_parseUsernameAndVpn ['u', '@', 'n'] 8 8 = (['u'], some ['n']) ∧
    common_parseUsernameAndVpn ['b'] 8 8 = (['b'], none) :=
  ⟨C5_cu_parsing.2.1 ['u'] ['n'] 8 8 (by decide) (by decide),
   C5_cu_parsing.1 ['b'] 8 8 (by decide)⟩

/-- C6: the flow-control queue example alternates acknowledgement
behaviour every tenth published message: the publish loop leaves the
state alone except after every tenth message, where it clears the
flow_receiving flag if it was set, and otherwise acknowledges the
withheld message id (when one exists), clears the slot and sets the
flag; while the flag is set the receive callback acknowledges every
delivered message immediately, and while it is clear it withholds the
acknowledgement and records the message id. -/
theorem C6_alternating_ack_toggle :
    (∀ (pc : Nat) (st : FcqState), pc % 10 ≠ 0 → publishToggle pc st = (st, [])) ∧
    (∀ (pc : Nat) (st : FcqState), pc % 10 = 0 → st.flow_receiving = true →
      publishToggle pc st = ({ st with flow_receiving := false }, [])) ∧
    (∀ (pc : Nat) (st : FcqState), pc % 10 = 0 → st.flow_receiving = false →
      st.unackedMsgId ≠ 0 →
      publishToggle pc st = (⟨true, 0⟩, [.ackSent st.unackedMsgId])) ∧
    (∀ (pc : Nat) (st : FcqState), pc % 10 = 0 → st.flow_receiving = false →
      st.unackedMsgId = 0 →
      publishToggle pc st = (⟨true, 0⟩, [])) ∧
    (∀ (st : FcqState) (msgId : Nat), st.flow_receiving = true →
      flowMsgCallbackFunc st msgId true true = (st, [.ackSent msgId])) ∧
    (∀ (st : FcqState) (msgId : Nat), st.flow_receiving = false →
      st.unackedMsgId = 0 →
      flowMsgCallbackFunc st msgId true true
        = ({ st with unackedMsgId := msgId }, [])) := by
  refine ⟨?_, ?_, ?_, ?_, ?_, ?_⟩
  · intro pc st h
    simp [publishToggle, h]
  · intro pc st h1 h2
    simp [publishToggle, h1, h2]
  · intro pc st h1 h2 h3
    simp [publishToggle, h1, h2, h3]
  · intro pc st h1 h2 h3
    cases st with
    | mk fr un =>
      simp only at h2 h3
      subst h2
      subst h3
      simp [publishToggle, h1]
  · intro st msgId h
    simp [flowMsgCallbackFunc, h]
  · intro st msgId h1 h2
    simp [flowMsgCallbackFunc, h1, h2]

/-- C6 witness: the toggle back to receiving acknowledges the withheld
message and clears the slot, at a concrete state. -/
theorem C6_witness :
    publishToggle 10 ⟨false, 4⟩ = (⟨true, 0⟩, [.ackSent 4]) ∧
    flowMsgCallbackFunc ⟨true, 0⟩ 11 true true = (⟨true, 0⟩, [.ackSent 11]) :=
  ⟨C6_alternating_ack_toggle.2.2.1 10 ⟨false, 4⟩ (by decide) rfl (by decide),
   C6_alternating_ack_toggle.2.2.2.2.1 ⟨true, 0⟩ 11 rfl⟩

/-- C7 counterexample: common_handleError reports through the API
logging facility (solClient_log at ERROR level), not through printf, so
an error surfaced only through common_handleError does not reach
standard output. -/
theorem C7_counterexample :
    (common_handleError 1 "solClient_initialize()"
      ⟨"SOLCLIENT_SUBCODE_TIMEOUT", 0, "timed out"⟩).channel = OutChannel.apiLog ∧
    OutChannel.apiLog ≠ OutChannel.stdout :=
  ⟨rfl, by decide⟩

/-- C7 amended: errors surfaced through common_handleError are reported
through the API logging facility at ERROR level with the stringified
sub-code and reason (not printed to standard output); error-class
session and flow events are printed to standard output with their
sub-code and reason by the event callbacks; and after any handled
runtime error the examples proceed to best-effort cleanup and exit 0
(flowControlQueue.c embedded as the representative: every non-usage
outcome past initialization runs solClient_cleanup and main returns
0). -/
theorem C7_error_reporting :
    (∀ (rc : Int) (ctx : String) (err : ErrorInfo),
      common_handleError rc ctx err
        = ⟨.apiLog, some SOLCLIENT_LOG_ERROR, some err.subCode, some err.errorStr⟩ ∧
      (common_handleError rc ctx err).channel ≠ .stdout) ∧
    (∀ (ev : SessionEvent) (err : ErrorInfo), isErrorClassEvent ev = true →
      common_eventCallback ev err
        = ⟨.stdout, none, some err.subCode, some err.errorStr⟩) ∧
    (∀ (ev : FlowEvent) (err : ErrorInfo), isFlowErrorClassEvent ev = true →
      common_flowEventCallback ev err
        = ⟨.stdout, none, some err.subCode, some err.errorStr⟩) ∧
    (∀ run : FcqOutcome, run ≠ .failInitialize →
      CleanupAct.solClientCleanup ∈ fcqCleanupFrom run) ∧
    (∀ (uLen vLen : Nat) (cmdline : List CmdOpt) (run : FcqOutcome),
      (common_parseCommandOptions uLen vLen cmdline flowControlQueue_required).2 = true →
      (flowControlQueue_main uLen vLen cmdline run).exitCode = 0) := by
  refine ⟨?_, ?_, ?_, ?_, ?_⟩
  · intro rc ctx err
    exact ⟨rfl, fun h => OutChannel.noConfusion h⟩
  · intro ev err h
    cases ev <;> first | rfl | exact absurd h (by decide)
  · intro ev err h
    cases ev <;> first | rfl | exact absurd h (by decide)
  · intro run h
    cases run <;> first | exact absurd rfl h | decide
  · intro uLen vLen cmdline run h
    unfold flowControlQueue_main
    dsimp only
    rw [if_neg (by simp [h])]

/-- C7 witness: an error-class event printed to standard output and the
cleanup membership, at concrete inputs. -/
theorem C7_witness :
    common_eventCallback .downError ⟨"SOLCLIENT_SUBCODE_COMMUNICATION_ERROR", 503, "link down"⟩
      = ⟨.stdout, none, some "SOLCLIENT_SUBCODE_COMMUNICATION_ERROR", some "link down"⟩ ∧
    CleanupAct.solClientCleanup ∈ fcqCleanupFrom .ranUntilCtrlC :=
  ⟨C7_error_reporting.2.1 _ _ rfl,
   C7_error_reporting.2.2.2.1 _ (by decide)⟩

/-- C8: the messageReplay main thread blocks on a busy-wait loop whose
body performs no action (no sleep or yield); the receive callback
increments the volatile counter exactly once per received message, so
after n deliveries the counter is n; and the loop terminates exactly
when some poll of the counter reaches 100 — in particular if every poll
sees fewer than 100 the loop never terminates. -/
theorem C8_busy_wait :
    busyWaitBodyActs = [] ∧
    (∀ (count : Nat) (dumpOk getSmfOk : Bool),
      (messageReceiveCallback count dumpOk getSmfOk).1 = count + 1) ∧
    (∀ n : Nat, msgReceivedAfter n = n) ∧
    (∀ obs : Nat → Nat, busyWaitTerminates obs ↔ ∃ k, 100 ≤ obs k) ∧
    (∀ obs : Nat → Nat, (∀ k, obs k < 100) → ¬ busyWaitTerminates obs) := by
  refine ⟨rfl, ?_, ?_, ?_, ?_⟩
  · intro c d g
    cases d <;> cases g <;> rfl
  · intro n
    induction n with
    | zero => rfl
    | succ m ih =>
      unfold msgReceivedAfter at ih ⊢
      rw [Function.iterate_succ_apply', ih]
      rfl
  · intro obs
    unfold busyWaitTerminates busyWaitGuard
    constructor
    · rintro ⟨k, hk⟩
      refine ⟨k, ?_⟩
      have := of_decide_eq_false hk
      exact Nat.le_of_not_lt this
    · rintro ⟨k, hk⟩
      refine ⟨k, ?_⟩
      exact decide_eq_false (Nat.not_lt.mpr hk)
  · intro obs h ht
    obtain ⟨k, hk⟩ := ht
    have := of_decide_eq_false hk
    exact this (h k)

/-- C8 witness: the counter after three callbacks, and non-termination
under a counter that never reaches 100. -/
theorem C8_witness :
    msgReceivedAfter 3 = 3 ∧ ¬ busyWaitTerminates (fun _ => 0) :=
  ⟨C8_busy_wait.2.2.1 3, C8_busy_wait.2.2.2.2 (fun _ => 0) (fun _ => Nat.succ_pos 99)⟩

/-- C9: for every options record, common_createAndConnectSession
hard-codes the session properties the spec presents as configurable:
SSL server-certificate validation is always disabled, connect retries
and reconnect retries are always the string "3", and the compression
level is exactly "9" when compression is enabled and "0" otherwise. -/
theorem C9_session_hardcoded_props :
    ∀ o : CommonOptions,
      lookupProp (common_createAndConnectSession_props o) .sslValidateCertificate
        = some .disableVal ∧
      lookupProp (common_createAndConnectSession_props o) .connectRetries
        = some (.str "3") ∧
      lookupProp (common_createAndConnectSession_props o) .reconnectRetries
        = some (.str "3") ∧
      lookupProp (common_createAndConnectSession_props o) .compressionLevel
        = some (.str (if o.enableCompression then "9" else "0")) := by
  intro o
  unfold common_createAndConnectSession_props
  by_cases h1 : o.targetHost.isEmpty <;> by_cases h2 : o.vpn.isEmpty <;>
    simp [h1, h2, lookupProp]

/-- C10: every queue provisioned by common_createQueue gets delete
permission; the respects-message-TTL property is set exactly when the
queue is not the dead message queue; and provisioning passes the
ignore-already-exists flag. -/
theorem C10_createQueue_props :
    ∀ queueName : String,
      lookupProp (common_createQueue_props queueName) .permission
        = some .permDelete ∧
      (lookupProp (common_createQueue_props queueName) .respectsMsgTtl
        = if queueName = COMMON_DMQ_NAME then none else some .enableVal) ∧
      ProvisionFlag.ignoreExistErrors ∈ common_createQueue_provisionFlags := by
  intro q
  refine ⟨?_, ?_, by decide⟩
  · by_cases h : q = COMMON_DMQ_NAME <;> simp [common_createQueue_props, lookupProp, h]
  · by_cases h : q = COMMON_DMQ_NAME <;> simp [common_createQueue_props, lookupProp, h]
